import Mathlib

/-!
Verification of the PTU vs PAYGO traffic simulator.

The repository `src/app.py` is the Streamlit front end; it delegates the
core computation to the modules `data_processing`, `ptu_calculations`,
`pricing` and `utils`, whose sources are not part of the provided tree.
Where a claim depends on one of those modules, the corresponding
definition below is modelled from the specification (its doc comment says
so); everything that `app.py` itself decides (the widget bounds on the
analysis range, the min/max validation gate, the traffic-optimization
recommendation over the result rows) is embedded from `app.py` directly.

Token quantities are modelled as rationals: the allocator divides the
remaining budget by `output_weight`, so reserved output counts are not
integral in general.
-/

/-- One minute of aggregated demand (spec `MinuteDemand`): the summed
input and output tokens of all requests falling in that minute. -/
structure MinuteDemand where
  input_tokens : ℚ
  output_tokens : ℚ
  deriving Repr, DecidableEq

/-- Per-minute, per-candidate allocation outcome (spec `AllocationResult`). -/
structure AllocationResult where
  reserved_input_tokens : ℚ
  reserved_output_tokens : ℚ
  overflow_input_tokens : ℚ
  overflow_output_tokens : ℚ
  deriving Repr, DecidableEq

/-- Modelled from the spec: the Capacity Allocator
`allocate(minute_demand, capacity_tpm_per_unit, num_units, output_weight)`
of `ptu_calculations` (not present under `src/`).  The total reserved
budget in weighted-equivalent tokens is `capacity_tpm_per_unit × num_units`;
input tokens are served first, up to the lesser of budget and input demand;
the remaining budget divided by `output_weight` bounds the output tokens
served, capped at output demand; everything not served is overflow. -/
def allocate (d : MinuteDemand) (capacity_tpm_per_unit : ℚ)
    (num_units : ℕ) (output_weight : ℚ) : AllocationResult :=
  let budget : ℚ := capacity_tpm_per_unit * (num_units : ℚ)
  let ri : ℚ := min budget d.input_tokens
  let ro : ℚ := min ((budget - ri) / output_weight) d.output_tokens
  { reserved_input_tokens := ri
    reserved_output_tokens := ro
    overflow_input_tokens := d.input_tokens - ri
    overflow_output_tokens := d.output_tokens - ro }

/-- C1: for every minute and every candidate unit count the allocation
conserves tokens exactly: reserved + overflow input tokens equal the
minute's input demand, and likewise for output tokens. -/
theorem allocate_conserves_tokens (d : MinuteDemand) (cap : ℚ) (n : ℕ) (w : ℚ) :
    (allocate d cap n w).reserved_input_tokens
        + (allocate d cap n w).overflow_input_tokens = d.input_tokens
    ∧ (allocate d cap n w).reserved_output_tokens
        + (allocate d cap n w).overflow_output_tokens = d.output_tokens := by
  constructor <;> simp [allocate]

/-- C2: the allocator serves input first: reserved input is
`min(budget, input demand)`, reserved output is
`min((budget − reserved input) / output_weight, output demand)`, the rest
is overflow; and on the concrete minute input=500, output=1000 with
capacity 1000, one unit and output weight 2 it reserves 500 input and 250
output tokens, spilling 750 output tokens to PAYGO. -/
theorem allocate_input_first :
    (∀ (d : MinuteDemand) (cap : ℚ) (n : ℕ) (w : ℚ),
      (allocate d cap n w).reserved_input_tokens
          = min (cap * (n : ℚ)) d.input_tokens
      ∧ (allocate d cap n w).reserved_output_tokens
          = min ((cap * (n : ℚ) - min (cap * (n : ℚ)) d.input_tokens) / w)
              d.output_tokens
      ∧ (allocate d cap n w).overflow_input_tokens
          = d.input_tokens - (allocate d cap n w).reserved_input_tokens
      ∧ (allocate d cap n w).overflow_output_tokens
          = d.output_tokens - (allocate d cap n w).reserved_output_tokens)
    ∧ allocate ⟨500, 1000⟩ 1000 1 2 =
        { reserved_input_tokens := 500
          reserved_output_tokens := 250
          overflow_input_tokens := 0
          overflow_output_tokens := 750 } := by
  refine ⟨fun d cap n w => ⟨rfl, rfl, rfl, rfl⟩, ?_⟩
  simp [allocate]
  norm_num

/-- C4: the reserved consumption of a minute, measured in
weighted-equivalent tokens, never exceeds the reserved capacity budget
`capacity_tpm_per_unit × num_units`.  In the exact (rational) model the
inequality holds with no tolerance at all. -/
theorem allocate_weighted_within_budget (d : MinuteDemand) (cap : ℚ) (n : ℕ)
    (w : ℚ) (hw : 0 < w) :
    (allocate d cap n w).reserved_input_tokens
        + w * (allocate d cap n w).reserved_output_tokens
      ≤ cap * (n : ℚ) := by
  simp only [allocate]
  have h1 : min (cap * (n : ℚ)) d.input_tokens ≤ cap * (n : ℚ) := min_le_left _ _
  have h2 : w * min ((cap * (n : ℚ) - min (cap * (n : ℚ)) d.input_tokens) / w)
      d.output_tokens
      ≤ cap * (n : ℚ) - min (cap * (n : ℚ)) d.input_tokens := by
    have := min_le_left ((cap * (n : ℚ) - min (cap * (n : ℚ)) d.input_tokens) / w)
      d.output_tokens
    calc w * min ((cap * (n : ℚ) - min (cap * (n : ℚ)) d.input_tokens) / w)
          d.output_tokens
        ≤ w * ((cap * (n : ℚ) - min (cap * (n : ℚ)) d.input_tokens) / w) :=
          mul_le_mul_of_nonneg_left this hw.le
      _ = cap * (n : ℚ) - min (cap * (n : ℚ)) d.input_tokens := by
          field_simp
  linarith

/-- Closed witness for `allocate_weighted_within_budget` at the Scenario B
minute (input 500, output 1000, capacity 1000, one unit, weight 2). -/
theorem allocate_weighted_within_budget_witness :
    (allocate ⟨500, 1000⟩ 1000 1 2).reserved_input_tokens
        + 2 * (allocate ⟨500, 1000⟩ 1000 1 2).reserved_output_tokens
      ≤ 1000 * ((1 : ℕ) : ℚ) :=
  allocate_weighted_within_budget ⟨500, 1000⟩ 1000 1 2 (by norm_num)

/-- Modelled from the spec: the Cost Aggregator's utilization figure
(`ptu_calculations`, not present under `src/`): reserved tokens consumed
divided by the theoretical maximum reserved capacity
`capacity_tpm_per_unit × num_units × minutes-per-month`, as a percentage,
defined as `0` when `num_units = 0`. -/
def utilization_pct (reserved_tokens cap : ℚ) (num_units : ℕ)
    (minutes_per_month : ℚ) : ℚ :=
  if num_units = 0 then 0
  else reserved_tokens / (cap * (num_units : ℚ) * minutes_per_month) * 100

/-- C6: with zero units every minute's allocation reserves nothing and
spills the full demand to overflow, and the reported utilization of the
`num_units = 0` sweep point is `0`. -/
theorem allocate_zero_units (d : MinuteDemand) (cap w : ℚ)
    (hin : 0 ≤ d.input_tokens) (hout : 0 ≤ d.output_tokens) :
    allocate d cap 0 w =
      { reserved_input_tokens := 0
        reserved_output_tokens := 0
        overflow_input_tokens := d.input_tokens
        overflow_output_tokens := d.output_tokens }
    ∧ ∀ r c m, utilization_pct r c 0 m = 0 := by
  constructor
  · simp [allocate, min_eq_left, hin, hout]
  · intro r c m
    simp [utilization_pct]

/-- Closed witness for `allocate_zero_units` at the Scenario B minute. -/
theorem allocate_zero_units_witness :
    allocate ⟨500, 1000⟩ 1000 0 2 =
      { reserved_input_tokens := 0
        reserved_output_tokens := 0
        overflow_input_tokens := 500
        overflow_output_tokens := 1000 }
    ∧ ∀ r c m, utilization_pct r c 0 m = 0 :=
  allocate_zero_units ⟨500, 1000⟩ 1000 2 (by norm_num) (by norm_num)

/-- One row of the sweep result (spec `SweepPoint`): aggregated reserved
(PTU-served) and overflow (PAYGO-served) token totals across all minutes
for one candidate unit count.  Field names follow the result columns of
`run_ptu_analysis` as consumed by `src/app.py`. -/
structure SweepPoint where
  num_ptus : ℕ
  ptu_input_tokens : ℚ
  ptu_output_tokens : ℚ
  paygo_input_tokens : ℚ
  paygo_output_tokens : ℚ
  deriving Repr, DecidableEq

/-- Modelled from the spec: the candidate unit counts the Sweep Engine
iterates (`ptu_calculations`, not present under `src/`): the `0` pure-PAYGO
baseline first, then the counts from `min_units` to `max_units` inclusive
in increments of `step`. -/
def candidateUnits (min_units max_units step : ℕ) : List ℕ :=
  0 :: List.range' min_units ((max_units - min_units) / step + 1) step

/-- Modelled from the spec: the Sweep Engine's per-candidate totals
(`ptu_calculations`, not present under `src/`): call the allocator once
per minute and sum each `AllocationResult` field over the series. -/
def sweepPoint (series : List MinuteDemand) (cap w : ℚ) (n : ℕ) : SweepPoint :=
  { num_ptus := n
    ptu_input_tokens :=
      (series.map (fun d => (allocate d cap n w).reserved_input_tokens)).sum
    ptu_output_tokens :=
      (series.map (fun d => (allocate d cap n w).reserved_output_tokens)).sum
    paygo_input_tokens :=
      (series.map (fun d => (allocate d cap n w).overflow_input_tokens)).sum
    paygo_output_tokens :=
      (series.map (fun d => (allocate d cap n w).overflow_output_tokens)).sum }

/-- Modelled from the spec: the Sweep Engine
`sweep(minute_demand_series, min_units, max_units, step, capacity_tpm_per_unit,
output_weight)` of `ptu_calculations` (not present under `src/`): one
`SweepPoint` per candidate unit count, the `num_units = 0` baseline always
included. -/
def sweep (series : List MinuteDemand) (min_units max_units step : ℕ)
    (cap w : ℚ) : List SweepPoint :=
  (candidateUnits min_units max_units step).map (sweepPoint series cap w)

/-- C3: every sweep contains the `num_units = 0` pure-PAYGO point, whatever
the configured minimum; and with `min_units = max_units = 15` the sweep is
exactly two points, for unit counts `0` and `15`, for any step. -/
theorem sweep_contains_paygo_baseline :
    (∀ (series : List MinuteDemand) (mn mx step : ℕ) (cap w : ℚ),
      ∃ p ∈ sweep series mn mx step cap w, p.num_ptus = 0)
    ∧ ∀ (series : List MinuteDemand) (step : ℕ) (cap w : ℚ),
      (sweep series 15 15 step cap w).map SweepPoint.num_ptus = [0, 15]
      ∧ (sweep series 15 15 step cap w).length = 2 := by
  constructor
  · intro series mn mx step cap w
    exact ⟨sweepPoint series cap w 0, by simp [sweep, candidateUnits], rfl⟩
  · intro series step cap w
    constructor
    · simp [sweep, candidateUnits, sweepPoint, Nat.zero_div, List.range']
    · simp [sweep, candidateUnits, Nat.zero_div, List.range']

/-- Span, in days, between the earliest and the latest timestamp of a
record set (timestamps as fractional days). -/
def datasetSpan : List ℚ → ℚ
  | [] => 0
  | t :: rest => rest.foldl max t - rest.foldl min t

/-- Modelled from the spec: `get_dataset_duration_days` of `utils` (not
present under `src/`), called by `src/app.py` line 184 on the full
processed record set, before the minute aggregation of line 187: the span
between earliest and latest timestamp, floored at a small positive
epsilon to avoid division by zero for single-timestamp datasets. -/
def get_dataset_duration_days (timestamps : List ℚ) (eps : ℚ) : ℚ :=
  max (datasetSpan timestamps) eps

/-- Modelled from the spec: the Cost Aggregator's 30-day normalization
(`ptu_calculations`, not present under `src/`): token totals are scaled
by `30 / observed_dataset_days` before pricing. -/
def normalize_to_month (tokens days : ℚ) : ℚ :=
  tokens * (30 / days)

/-- C7: token totals are scaled by `30 / observed_dataset_days`, the
duration being the timestamp span of the full record set floored at the
epsilon; for any record set spanning exactly 10 days the factor is 3, and
300000 input tokens normalize to 900000. -/
theorem normalize_month_scaling (ts : List ℚ) (eps tokens : ℚ)
    (hspan : datasetSpan ts = 10) (heps : eps ≤ 10) :
    get_dataset_duration_days ts eps = 10
    ∧ normalize_to_month tokens (get_dataset_duration_days ts eps) = tokens * 3
    ∧ normalize_to_month 300000 (get_dataset_duration_days ts eps) = 900000 := by
  have hdur : get_dataset_duration_days ts eps = 10 := by
    simp [get_dataset_duration_days, hspan, max_eq_left heps]
  refine ⟨hdur, ?_, ?_⟩ <;> simp [normalize_to_month, hdur] <;> norm_num

/-- Closed witness for `normalize_month_scaling`: two timestamps ten days
apart, a one-minute epsilon, Scenario C's 300000 input tokens. -/
theorem normalize_month_scaling_witness :
    get_dataset_duration_days [0, 10] (1 / 1440) = 10
    ∧ normalize_to_month 300000 (get_dataset_duration_days [0, 10] (1 / 1440))
        = 300000 * 3
    ∧ normalize_to_month 300000 (get_dataset_duration_days [0, 10] (1 / 1440))
        = 900000 :=
  normalize_month_scaling [0, 10] (1 / 1440) 300000 (by
    simp [datasetSpan]) (by norm_num)

/-- Outcome of the analysis stage of `main` in `src/app.py`: either the
configuration error shown at line 141 or the analysis results. -/
inductive MainOutcome where
  | configError (msg : String)
  | results (points : List SweepPoint)
  deriving Repr, DecidableEq

/-- The analysis-range gate of `main` (src/app.py lines 140-142): when the
configured minimum exceeds the maximum, `main` reports the error and
returns before `run_ptu_analysis` is reached; otherwise the sweep runs. -/
def mainAnalysis (min_ptu_count max_ptu_count step : ℕ)
    (series : List MinuteDemand) (cap w : ℚ) : MainOutcome :=
  if min_ptu_count > max_ptu_count then
    .configError "Min PTU count must be <= Max PTU count"
  else
    .results (sweep series min_ptu_count max_ptu_count step cap w)

/-- C8: a sweep range with `min_units > max_units` fails fast with the
descriptive error of line 141 and produces no `SweepPoint` at all. -/
theorem main_rejects_bad_range (mn mx step : ℕ) (series : List MinuteDemand)
    (cap w : ℚ) (hbad : mn > mx) :
    mainAnalysis mn mx step series cap w
        = .configError "Min PTU count must be <= Max PTU count"
    ∧ ∀ pts, mainAnalysis mn mx step series cap w ≠ .results pts := by
  have h : mainAnalysis mn mx step series cap w
      = .configError "Min PTU count must be <= Max PTU count" := by
    simp [mainAnalysis, hbad]
  exact ⟨h, fun pts hc => by simp [h] at hc⟩

/-- Closed witness for `main_rejects_bad_range`: minimum 20 units against
maximum 15. -/
theorem main_rejects_bad_range_witness :
    mainAnalysis 20 15 1 [] 1000 2
        = .configError "Min PTU count must be <= Max PTU count"
    ∧ ∀ pts, mainAnalysis 20 15 1 [] 1000 2 ≠ .results pts :=
  main_rejects_bad_range 20 15 1 [] 1000 2 (by norm_num)

/-- The admissible values of the "Min PTU Count" widget of `src/app.py`
line 136: `st.number_input` with `min_value=15` and `max_value=1000`. -/
def minPtuWidgetAdmissible (v : ℕ) : Prop := 15 ≤ v ∧ v ≤ 1000

/-- The admissible values of the "Max PTU Count" widget of `src/app.py`
line 138: `st.number_input` with `min_value=15` and `max_value=1000`. -/
def maxPtuWidgetAdmissible (v : ℕ) : Prop := 15 ≤ v ∧ v ≤ 1000

/-- C10: the configuration interface only admits analysis ranges within
`[15, 1000]`, so the configured minimum passed to the sweep is never `0`
(nor below 15), and every sweep point other than the always-present
`num_units = 0` baseline has at least 15 units. -/
theorem widget_range_precludes_zero_min (mn mx step : ℕ)
    (series : List MinuteDemand) (cap w : ℚ)
    (hmn : minPtuWidgetAdmissible mn) (hmx : maxPtuWidgetAdmissible mx) :
    15 ≤ mn ∧ 0 < mn ∧ 15 ≤ mx
    ∧ ∀ p ∈ sweep series mn mx step cap w, p.num_ptus = 0 ∨ 15 ≤ p.num_ptus := by
  refine ⟨hmn.1, lt_of_lt_of_le (by norm_num) hmn.1, hmx.1, ?_⟩
  intro p hp
  simp only [sweep, candidateUnits, List.map_cons, List.mem_cons,
    List.mem_map] at hp
  rcases hp with hp | ⟨u, hu, hp⟩
  · left; rw [hp]; rfl
  · right
    rw [← hp]
    simp only [sweepPoint]
    rw [List.mem_range'] at hu
    obtain ⟨i, _, hui⟩ := hu
    have h15 := hmn.1
    omega

/-- Closed witness for `widget_range_precludes_zero_min` at the widget
defaults mn = 15, mx = 100. -/
theorem widget_range_precludes_zero_min_witness :
    15 ≤ 15 ∧ 0 < 15 ∧ 15 ≤ 100
    ∧ ∀ p ∈ sweep [] 15 100 5 1000 2, p.num_ptus = 0 ∨ 15 ≤ p.num_ptus :=
  widget_range_precludes_zero_min 15 100 5 [] 1000 2
    ⟨by norm_num, by norm_num⟩ ⟨by norm_num, by norm_num⟩

/-- Raising the reserved budget never shrinks the part of it left after
serving input: `b − min b x` is monotone in `b`. -/
theorem sub_min_self_mono {b1 b2 x : ℚ} (hb : b1 ≤ b2) :
    b1 - min b1 x ≤ b2 - min b2 x := by
  rcases le_total b1 x with h | h
  · rw [min_eq_left h]
    have := min_le_left b2 x
    linarith
  · rw [min_eq_right h, min_eq_right (h.trans hb)]
    linarith

/-- Adding units never lowers either reserved component of a minute's
allocation. -/
theorem allocate_mono_units (d : MinuteDemand) (cap w : ℚ) (hcap : 0 ≤ cap)
    (hw : 0 < w) {n1 n2 : ℕ} (hn : n1 ≤ n2) :
    (allocate d cap n1 w).reserved_input_tokens
        ≤ (allocate d cap n2 w).reserved_input_tokens
    ∧ (allocate d cap n1 w).reserved_output_tokens
        ≤ (allocate d cap n2 w).reserved_output_tokens := by
  have hb : cap * (n1 : ℚ) ≤ cap * (n2 : ℚ) :=
    mul_le_mul_of_nonneg_left (by exact_mod_cast hn) hcap
  constructor
  · simp only [allocate]
    exact min_le_min hb le_rfl
  · simp only [allocate]
    exact min_le_min ((div_le_div_iff_of_pos_right hw).2 (sub_min_self_mono hb))
      le_rfl

/-- Modelled from the spec: the PAYGO overflow cost of a sweep point (Cost
Aggregator of `ptu_calculations`, not present under `src/`): only overflow
tokens are billed PAYGO, normalized to a 30-day month and priced per 1000
tokens at the input/output rates. -/
def paygo_overflow_cost (p : SweepPoint) (days input_price output_price : ℚ) :
    ℚ :=
  normalize_to_month p.paygo_input_tokens days / 1000 * input_price
    + normalize_to_month p.paygo_output_tokens days / 1000 * output_price

/-- C5: with the minute series, capacity, weight, duration and prices held
fixed, a larger unit count never lowers the total reserved tokens of the
sweep point and never raises its PAYGO overflow cost. -/
theorem sweep_monotone_in_units (series : List MinuteDemand)
    (cap w days input_price output_price : ℚ) (n1 n2 : ℕ) (hcap : 0 ≤ cap)
    (hw : 0 < w) (hn : n1 ≤ n2) (hdays : 0 < days)
    (hip : 0 ≤ input_price) (hop : 0 ≤ output_price) :
    (sweepPoint series cap w n1).ptu_input_tokens
        + (sweepPoint series cap w n1).ptu_output_tokens
      ≤ (sweepPoint series cap w n2).ptu_input_tokens
        + (sweepPoint series cap w n2).ptu_output_tokens
    ∧ paygo_overflow_cost (sweepPoint series cap w n2) days input_price
          output_price
      ≤ paygo_overflow_cost (sweepPoint series cap w n1) days input_price
          output_price := by
  have hri : (series.map
        (fun d => (allocate d cap n1 w).reserved_input_tokens)).sum
      ≤ (series.map (fun d => (allocate d cap n2 w).reserved_input_tokens)).sum :=
    List.sum_le_sum fun d _ => (allocate_mono_units d cap w hcap hw hn).1
  have hro : (series.map
        (fun d => (allocate d cap n1 w).reserved_output_tokens)).sum
      ≤ (series.map (fun d => (allocate d cap n2 w).reserved_output_tokens)).sum :=
    List.sum_le_sum fun d _ => (allocate_mono_units d cap w hcap hw hn).2
  have hoi : (series.map
        (fun d => (allocate d cap n2 w).overflow_input_tokens)).sum
      ≤ (series.map (fun d => (allocate d cap n1 w).overflow_input_tokens)).sum := by
    refine List.sum_le_sum fun d _ => ?_
    have h := (allocate_mono_units d cap w hcap hw hn).1
    simp only [allocate] at h ⊢
    linarith
  have hoo : (series.map
        (fun d => (allocate d cap n2 w).overflow_output_tokens)).sum
      ≤ (series.map (fun d => (allocate d cap n1 w).overflow_output_tokens)).sum := by
    refine List.sum_le_sum fun d _ => ?_
    have h := (allocate_mono_units d cap w hcap hw hn).2
    simp only [allocate] at h ⊢
    linarith
  constructor
  · simpa [sweepPoint] using add_le_add hri hro
  · simp only [paygo_overflow_cost, normalize_to_month, sweepPoint]
    have h30 : (0 : ℚ) ≤ 30 / days := by positivity
    gcongr

/-- Closed witness for `sweep_monotone_in_units`: Scenario B's minute,
unit counts 0 and 1, a ten-day dataset and unit PAYGO prices. -/
theorem sweep_monotone_in_units_witness :
    (sweepPoint [⟨500, 1000⟩] 1000 2 0).ptu_input_tokens
        + (sweepPoint [⟨500, 1000⟩] 1000 2 0).ptu_output_tokens
      ≤ (sweepPoint [⟨500, 1000⟩] 1000 2 1).ptu_input_tokens
        + (sweepPoint [⟨500, 1000⟩] 1000 2 1).ptu_output_tokens
    ∧ paygo_overflow_cost (sweepPoint [⟨500, 1000⟩] 1000 2 1) 10 1 1
      ≤ paygo_overflow_cost (sweepPoint [⟨500, 1000⟩] 1000 2 0) 10 1 1 :=
  sweep_monotone_in_units [⟨500, 1000⟩] 1000 2 10 1 1 0 1 (by norm_num)
    (by norm_num) (by norm_num) (by norm_num) (by norm_num) (by norm_num)

/-- One row of the analysis results as consumed by the traffic-optimization
block of `src/app.py` (lines 300-315): the PTU count and the total monthly
cost. -/
structure CostRow where
  num_ptus : ℕ
  total_monthly_cost : ℚ
  deriving Repr, DecidableEq

/-- `idxmin` over a nonempty collection, written as head plus tail: the
first element attaining the minimum of `f`, as pandas `Series.idxmin`
returns the first index of the minimum (src/app.py lines 310 and 313). -/
def idxminBy {α : Type} (f : α → ℚ) (a : α) (rest : List α) : α :=
  rest.foldl (fun b x => if f x < f b then x else b) a

/-- `idxminBy` returns a member of the collection that minimizes `f`. -/
theorem idxminBy_spec {α : Type} (f : α → ℚ) (a : α) (rest : List α) :
    idxminBy f a rest ∈ a :: rest
    ∧ ∀ x ∈ a :: rest, f (idxminBy f a rest) ≤ f x := by
  induction rest generalizing a with
  | nil =>
    refine ⟨by simp [idxminBy], ?_⟩
    intro x hx
    simp only [idxminBy, List.foldl_nil]
    simp only [List.mem_singleton] at hx
    rw [hx]
  | cons b bs ih =>
    have hstep : idxminBy f a (b :: bs)
        = idxminBy f (if f b < f a then b else a) bs := rfl
    obtain ⟨hmem, hmin⟩ := ih (if f b < f a then b else a)
    have ha' : f (if f b < f a then b else a) ≤ f a := by
      split
      · exact le_of_lt (by assumption)
      · exact le_rfl
    have hb' : f (if f b < f a then b else a) ≤ f b := by
      split
      · exact le_rfl
      · exact le_of_not_lt (by assumption)
    constructor
    · rw [hstep]
      rcases List.mem_cons.1 hmem with h1 | h1
      · rw [h1]
        split
        · exact List.mem_cons_of_mem _ (List.mem_cons_self _ _)
        · exact List.mem_cons_self _ _
      · exact List.mem_cons_of_mem _ (List.mem_cons_of_mem _ h1)
    · intro x hx
      rw [hstep]
      rcases List.mem_cons.1 hx with h1 | h1
      · rw [h1]
        exact le_trans (hmin _ (List.mem_cons_self _ _)) ha'
      · rcases List.mem_cons.1 h1 with h2 | h2
        · rw [h2]
          exact le_trans (hmin _ (List.mem_cons_self _ _)) hb'
        · exact hmin _ (List.mem_cons_of_mem _ h2)

/-- The PAYGO-only baseline cost read by `src/app.py` line 301: the total
monthly cost of the first result row with `num_ptus == 0`. -/
def paygoOnlyCost (rows : List CostRow) : Option ℚ :=
  ((rows.filter fun r => r.num_ptus = 0).head?).map CostRow.total_monthly_cost

/-- The traffic-optimization selection of `src/app.py` lines 302-315: among
rows with `num_ptus > 0`, prefer those whose cost difference to the PAYGO
baseline is non-negative and take the first minimizer of that difference;
if none is at or above the baseline, take the first minimizer of the
absolute difference. -/
def recommendOptimal (rows : List CostRow) (base : ℚ) : Option CostRow :=
  match (rows.filter fun r => 0 < r.num_ptus).filter
      (fun r => 0 ≤ r.total_monthly_cost - base),
    rows.filter fun r => 0 < r.num_ptus with
  | a :: as, _ => some (idxminBy (fun r => r.total_monthly_cost - base) a as)
  | [], c :: cs => some (idxminBy (fun r => |r.total_monthly_cost - base|) c cs)
  | [], [] => none

/-- C9: given the PAYGO-only baseline cost, the recommendation picks, among
rows with positive PTU count, a row whose cost difference to the baseline
is the smallest non-negative one when some row is at or above the baseline,
and otherwise a row with the smallest absolute difference. -/
theorem recommend_selects_closest (rows : List CostRow) (base : ℚ)
    (hne : (rows.filter fun r => 0 < r.num_ptus) ≠ []) :
    ∃ r, recommendOptimal rows base = some r
      ∧ r ∈ (rows.filter fun r => 0 < r.num_ptus)
      ∧ ((∃ p ∈ (rows.filter fun r => 0 < r.num_ptus),
            0 ≤ p.total_monthly_cost - base) →
          0 ≤ r.total_monthly_cost - base
          ∧ ∀ p ∈ (rows.filter fun r => 0 < r.num_ptus),
              0 ≤ p.total_monthly_cost - base →
              r.total_monthly_cost - base ≤ p.total_monthly_cost - base)
      ∧ ((∀ p ∈ (rows.filter fun r => 0 < r.num_ptus),
            p.total_monthly_cost - base < 0) →
          ∀ p ∈ (rows.filter fun r => 0 < r.num_ptus),
            |r.total_monthly_cost - base| ≤ |p.total_monthly_cost - base|) := by
  rcases h1 : (rows.filter fun r => 0 < r.num_ptus).filter
      (fun r => 0 ≤ r.total_monthly_cost - base) with _ | ⟨a, as⟩
  · rcases h2 : rows.filter fun r => 0 < r.num_ptus with _ | ⟨c, cs⟩
    · exact absurd h2 hne
    · have hall : ∀ p ∈ (rows.filter fun r => 0 < r.num_ptus),
          p.total_monthly_cost - base < 0 := by
        intro p hp
        by_contra hge
        have hpmem : p ∈ (rows.filter fun r => 0 < r.num_ptus).filter
            (fun r => 0 ≤ r.total_monthly_cost - base) :=
          List.mem_filter.2 ⟨hp, by simpa using le_of_not_lt hge⟩
        rw [h1] at hpmem
        exact absurd hpmem (List.not_mem_nil p)
      obtain ⟨hmem, hmin⟩ :=
        idxminBy_spec (fun r => |r.total_monthly_cost - base|) c cs
      refine ⟨idxminBy (fun r => |r.total_monthly_cost - base|) c cs, ?_, ?_,
        ?_, ?_⟩
      · unfold recommendOptimal
        rw [h1, h2]
      · rw [h2]
        exact hmem
      · intro ⟨p, hp, hple⟩
        exact absurd (hall p hp) (not_lt.2 hple)
      · intro _ p hp
        rw [h2] at hp
        exact hmin p hp
  · have hamem : a ∈ (rows.filter fun r => 0 < r.num_ptus).filter
        (fun r => 0 ≤ r.total_monthly_cost - base) := by
      rw [h1]; exact List.mem_cons_self _ _
    obtain ⟨hmem, hmin⟩ :=
      idxminBy_spec (fun r => r.total_monthly_cost - base) a as
    rw [← h1] at hmem
    refine ⟨idxminBy (fun r => r.total_monthly_cost - base) a as, ?_, ?_, ?_, ?_⟩
    · unfold recommendOptimal
      rw [h1]
    · exact List.mem_of_mem_filter hmem
    · intro _
      refine ⟨?_, ?_⟩
      · have := (List.mem_filter.1 hmem).2
        simpa using this
      · intro p hp hple
        have hpmem : p ∈ (rows.filter fun r => 0 < r.num_ptus).filter
            (fun r => 0 ≤ r.total_monthly_cost - base) :=
          List.mem_filter.2 ⟨hp, by simpa using hple⟩
        rw [h1] at hpmem
        exact hmin p hpmem
    · intro hall
      have := hall _ (List.mem_of_mem_filter hmem)
      have hge := (List.mem_filter.1 hmem).2
      simp only [decide_eq_true_eq] at hge
      linarith

/-- Closed witness for `recommend_selects_closest`: a baseline row costing
100 and one 15-unit row costing 120. -/
theorem recommend_selects_closest_witness :
    ∃ r, recommendOptimal [(⟨0, 100⟩ : CostRow), ⟨15, 120⟩] 100 = some r
      ∧ r ∈ ([(⟨0, 100⟩ : CostRow), ⟨15, 120⟩].filter fun r => 0 < r.num_ptus)
      ∧ ((∃ p ∈ ([(⟨0, 100⟩ : CostRow), ⟨15, 120⟩].filter fun r => 0 < r.num_ptus),
            0 ≤ p.total_monthly_cost - 100) →
          0 ≤ r.total_monthly_cost - 100
          ∧ ∀ p ∈ ([(⟨0, 100⟩ : CostRow), ⟨15, 120⟩].filter fun r => 0 < r.num_ptus),
              0 ≤ p.total_monthly_cost - 100 →
              r.total_monthly_cost - 100 ≤ p.total_monthly_cost - 100)
      ∧ ((∀ p ∈ ([(⟨0, 100⟩ : CostRow), ⟨15, 120⟩].filter fun r => 0 < r.num_ptus),
            p.total_monthly_cost - 100 < 0) →
          ∀ p ∈ ([(⟨0, 100⟩ : CostRow), ⟨15, 120⟩].filter fun r => 0 < r.num_ptus),
            |r.total_monthly_cost - 100| ≤ |p.total_monthly_cost - 100|) :=
  recommend_selects_closest [(⟨0, 100⟩ : CostRow), ⟨15, 120⟩] 100 (by decide)
